import Mathlib

/-!
Verification of the client-side data-access (Gateway) and navigation-state
contract of the learn-to-earn web application.

The Gateway (src/services/api.js) is embedded as pure functions from the
transport outcome (HTTP status, response body) to the value the operation
resolves with, together with the stored-token transition it performs.
Rejection (a thrown `Error`) is modelled as `Except.error msg`; resolution
as `Except.ok v`.  The navigation controller and the admin module's nested
tab state are embedded as explicit state-transition functions.
-/

deriving instance DecidableEq for Except

namespace Reads

/-- Transport success predicate: `res.ok` of the Fetch API, true exactly for
2xx statuses. -/
def respOk (status : Nat) : Bool := decide (200 ≤ status ∧ status < 300)

/-- Body of a non-success response, as seen by the error-normalization
routine: either it parses as JSON (carrying an optional string `detail`
field and the raw text), or JSON parsing fails and only raw text is
available. -/
inductive RespBody where
  | jsonBody (detail : Option String) (raw : String)
  | textBody (raw : String)
deriving DecidableEq, Repr

/-- Request headers constructed by the Gateway.  `authorization` is the
value of the Authorization header when present. -/
structure Headers where
  contentType : Bool
  authorization : Option String
deriving DecidableEq, Repr

/-- Embedding of `getAuthHeader` (api.js lines 17-26): always a JSON
Content-Type header; an Authorization bearer header exactly when a token is
stored. -/
def getAuthHeader (token : Option String) : Headers :=
  { contentType := true,
    authorization := token.map (fun t => "Bearer " ++ t) }

/-- Embedding of `handleFailedResponse` (api.js lines 29-42).  The base
message carries the action and status; if the body parses as JSON, a truthy
`detail` field (in JS, `data.detail || errorDetail`: absent or empty-string
detail is falsy) replaces it; if the body does not parse, the first 100
characters of the raw text are appended.  The returned string is the
message of the thrown `Error`. -/
def handleFailedResponse (status : Nat) (action : String) (body : RespBody) : String :=
  let base := "Failed to " ++ action ++ " (Status: " ++ toString status ++ ")"
  match body with
  | RespBody.jsonBody detail _ =>
      match detail with
      | some d => if d = "" then base else d
      | none => base
  | RespBody.textBody raw =>
      base ++ ". Server response: " ++ raw.take 100 ++ "..."

/-- Substring test used to state the spec's "message containing ..."
properties. -/
def containsSub (t s : String) : Bool :=
  (List.range (t.data.length + 1)).any fun i => s.data.isPrefixOf (t.data.drop i)

-- ### Auth operations and the stored token

/-- Embedding of `api.auth.login` (api.js lines 47-61), viewed as a function
of the stored token before the call and the transport outcome.  On a
non-success response `handleFailedResponse` throws before
`localStorage.setItem` runs, so the stored token is unchanged; on success
the fresh `access_token` from the response overwrites the stored token and
the call resolves. -/
def login (tokenBefore : Option String) (status : Nat) (body : RespBody)
    (accessToken : String) : Option String × Except String String :=
  if respOk status then
    (some accessToken, Except.ok accessToken)
  else
    (tokenBefore, Except.error (handleFailedResponse status "Login" body))

/-- Embedding of `api.auth.signup` (api.js lines 62-76); identical token
behaviour to `login` with action string "Signup". -/
def signup (tokenBefore : Option String) (status : Nat) (body : RespBody)
    (accessToken : String) : Option String × Except String String :=
  if respOk status then
    (some accessToken, Except.ok accessToken)
  else
    (tokenBefore, Except.error (handleFailedResponse status "Signup" body))

/-- Raw profile payload returned by the backend for `/user/profile`. -/
structure RawProfile where
  id : String
  name : String
  email : String
  is_admin : Bool
  created_at : String
deriving DecidableEq, Repr

/-- Client-side user view model built by `api.auth.me` on success
(api.js lines 88-96). -/
structure UserView where
  id : String
  name : String
  email : String
  is_admin : Bool
  avatar : String
  joined : String
deriving DecidableEq, Repr

/-- Mapping of the raw profile to the user view model, including the derived
avatar URL (api.js line 94). -/
def mapProfile (d : RawProfile) : UserView :=
  { id := d.id, name := d.name, email := d.email, is_admin := d.is_admin,
    avatar := "https://api.dicebear.com/8.x/initials/svg?seed=" ++ d.name,
    joined := d.created_at }

/-- Embedding of `api.auth.me` (api.js lines 77-97): with no stored token it
returns null (here `none`) without touching the network; with a token, a
non-success response removes the stored token and returns null; a success
keeps the token and returns the mapped profile. -/
def me (tokenBefore : Option String) (status : Nat) (data : RawProfile) :
    Option String × Option UserView :=
  match tokenBefore with
  | none => (none, none)
  | some t =>
      if respOk status then (some t, some (mapProfile data))
      else (none, none)

-- ### Read operations with empty defaults

/-- Raw category aggregate from `/lessons/categories`. -/
structure RawCategory where
  category : String
  count : Nat
deriving DecidableEq, Repr

/-- Category view model produced by `api.learn.getCategories`. -/
structure Category where
  id : String
  name : String
  count : Nat
  color : String
deriving DecidableEq, Repr

/-- Color derivation inlined in `api.learn.getCategories` (api.js line 122):
the name JAMB maps to the purple constant, every other name to the blue
default. -/
def categoryColor (name : String) : String :=
  if name = "JAMB" then "bg-purple-100 text-purple-600"
  else "bg-blue-100 text-blue-600"

/-- Embedding of `api.learn.getCategories` (api.js lines 113-124): on a
non-success response it resolves with `[]`; on success it maps each raw
aggregate to the view model with lower-cased id and derived color. -/
def getCategories (status : Nat) (data : List RawCategory) :
    Except String (List Category) :=
  if respOk status then
    Except.ok (data.map fun cat =>
      { id := cat.category.toLower, name := cat.category,
        count := cat.count, color := categoryColor cat.category })
  else Except.ok []

/-- Lesson summary as sent by the backend for a category listing. -/
structure LessonSummary where
  id : String
  title : String
  category : String
deriving DecidableEq, Repr

/-- Lesson row shown in list views, with the client-added duration field. -/
structure LessonRow where
  id : String
  title : String
  category : String
  duration : String
deriving DecidableEq, Repr

/-- Embedding of `api.learn.getLessons` (api.js lines 125-134): on a
non-success response it resolves with `[]`; on success each lesson is spread
with a hardcoded duration. -/
def getLessons (status : Nat) (data : List LessonSummary) :
    Except String (List LessonRow) :=
  if respOk status then
    Except.ok (data.map fun l =>
      { id := l.id, title := l.title, category := l.category,
        duration := "15 min" })
  else Except.ok []

/-- Full lesson payload from `/lessons/{id}`. -/
structure LessonDetailData where
  id : String
  title : String
  category : String
  content : Option String
  video_url : Option String
deriving DecidableEq, Repr

/-- Embedding of `api.learn.getLessonDetail` (api.js lines 135-139): on a
non-success response it resolves with null (`none`), otherwise with the
parsed lesson. -/
def getLessonDetail (status : Nat) (data : LessonDetailData) :
    Except String (Option LessonDetailData) :=
  if respOk status then Except.ok (some data) else Except.ok none

/-- Quiz question as delivered to the client (no correct answer field). -/
structure QuizQuestion where
  id : String
  question : String
  options : List String
deriving DecidableEq, Repr

/-- Embedding of `api.learn.getQuizQuestions` (api.js lines 140-144): on a
non-success response it resolves with `[]`, otherwise with the parsed
question list. -/
def getQuizQuestions (status : Nat) (data : List QuizQuestion) :
    Except String (List QuizQuestion) :=
  if respOk status then Except.ok data else Except.ok []

/-- Quiz submission result returned by the backend. -/
structure QuizResult where
  score : Nat
  correct : Nat
  wrong : Nat
  tokens_awarded : Nat
deriving DecidableEq, Repr

/-- Embedding of `api.learn.submitQuiz` (api.js lines 145-157): a mutation;
on a non-success response it rejects with the normalized message, otherwise
resolves with the parsed result. -/
def submitQuiz (status : Nat) (body : RespBody) (data : QuizResult) :
    Except String QuizResult :=
  if respOk status then Except.ok data
  else Except.error (handleFailedResponse status "Submit Quiz" body)

/-- Profile stats payload; zeros are the failure default. -/
structure Stats where
  lessons_completed : Nat
  quizzes_taken : Nat
deriving DecidableEq, Repr

/-- Embedding of `api.profile.getStats` (api.js lines 102-108): on a
non-success response it resolves with zero stats. -/
def getStats (status : Nat) (data : Stats) : Except String Stats :=
  if respOk status then Except.ok data
  else Except.ok { lessons_completed := 0, quizzes_taken := 0 }

/-- Embedding of `api.wallet.getBalance` (api.js lines 162-167): on a
non-success response it resolves with 0, otherwise with the
`token_balance` field. -/
def getBalance (status : Nat) (tokenBalance : Nat) : Except String Nat :=
  if respOk status then Except.ok tokenBalance else Except.ok 0

/-- Embedding of `api.wallet.getHistory` (api.js lines 169-180): on a
non-success response it resolves with `[]`, otherwise it returns the parsed
data unchanged. -/
def getHistory {α : Type} (status : Nat) (data : List α) :
    Except String (List α) :=
  if respOk status then Except.ok data else Except.ok []

-- ### Admin operations (all mutations / privileged reads that propagate)

/-- Embedding of `api.admin.getUsers` (api.js lines 186-192). -/
def adminGetUsers {α : Type} (status : Nat) (body : RespBody) (data : α) :
    Except String α :=
  if respOk status then Except.ok data
  else Except.error (handleFailedResponse status "Fetch Users (Admin)" body)

/-- Embedding of `api.admin.getAllUsers` (api.js lines 195-203). -/
def adminGetAllUsers {α : Type} (status : Nat) (body : RespBody) (data : α) :
    Except String α :=
  if respOk status then Except.ok data
  else Except.error (handleFailedResponse status "Fetch All Users" body)

/-- Embedding of `api.admin.promoteUser` (api.js lines 205-214); the action
string depends on the direction of the change. -/
def adminPromoteUser {α : Type} (isAdmin : Bool) (status : Nat)
    (body : RespBody) (data : α) : Except String α :=
  if respOk status then Except.ok data
  else Except.error (handleFailedResponse status
    (if isAdmin then "Promote User" else "Demote User") body)

/-- Embedding of `api.admin.createLesson` (api.js lines 216-226). -/
def adminCreateLesson {α : Type} (status : Nat) (body : RespBody) (data : α) :
    Except String α :=
  if respOk status then Except.ok data
  else Except.error (handleFailedResponse status "Create Lesson" body)

/-- Embedding of `api.admin.deleteLesson` (api.js lines 228-237); resolves
with an empty object on success. -/
def adminDeleteLesson (lessonId : String) (status : Nat) (body : RespBody) :
    Except String Unit :=
  if respOk status then Except.ok ()
  else Except.error (handleFailedResponse status
    ("Delete Lesson ID " ++ lessonId) body)

/-- Embedding of `api.admin.uploadQuiz` (api.js lines 239-251). -/
def adminUploadQuiz {α : Type} (status : Nat) (body : RespBody) (data : α) :
    Except String α :=
  if respOk status then Except.ok data
  else Except.error (handleFailedResponse status "Upload Quiz Questions" body)

/-- Embedding of `api.admin.deleteQuiz` (api.js lines 253-262). -/
def adminDeleteQuiz (lessonId : String) (status : Nat) (body : RespBody) :
    Except String Unit :=
  if respOk status then Except.ok ()
  else Except.error (handleFailedResponse status
    ("Delete Quiz for Lesson ID " ++ lessonId) body)

/-- Embedding of `api.admin.getAllLessons` (api.js lines 265-273). -/
def adminGetAllLessons {α : Type} (status : Nat) (body : RespBody) (data : α) :
    Except String α :=
  if respOk status then Except.ok data
  else Except.error (handleFailedResponse status "Fetch All Lessons" body)

/-- Embedding of `api.admin.createQuiz` (api.js lines 276-286). -/
def adminCreateQuiz {α : Type} (status : Nat) (body : RespBody) (data : α) :
    Except String α :=
  if respOk status then Except.ok data
  else Except.error (handleFailedResponse status "Create Quiz" body)

-- ### Per-operation request/headers and token effect

/-- Enumeration of every operation exported by the Gateway (api.js). -/
inductive GatewayOp where
  | login | signup | me
  | getStats
  | getCategories | getLessons | getLessonDetail | getQuizQuestions | submitQuiz
  | getBalance | getHistory
  | adminGetUsers | adminGetAllUsers | adminPromoteUser
  | adminCreateLesson | adminDeleteLesson
  | adminUploadQuiz | adminDeleteQuiz
  | adminGetAllLessons | adminCreateQuiz
deriving DecidableEq, Repr

/-- Headers of the request an operation issues, given the stored token, or
`none` when the operation issues no request at all.  Login and signup send a
bare JSON Content-Type header (api.js lines 50, 65); `me` returns early
without a request when no token is stored (api.js line 79); every other
operation sends `getAuthHeader()`. -/
def requestOf (op : GatewayOp) (token : Option String) : Option Headers :=
  match op with
  | GatewayOp.login => some { contentType := true, authorization := none }
  | GatewayOp.signup => some { contentType := true, authorization := none }
  | GatewayOp.me =>
      match token with
      | none => none
      | some _ => some (getAuthHeader token)
  | _ => some (getAuthHeader token)

/-- Stored token after an operation completes, as a function of the token
before, the response status, and (for login/signup) the fresh token in the
response body.  Only login, signup and `me` touch `localStorage` in api.js:
login/signup overwrite it after the success check passes; `me` removes it on
a failed profile fetch (and leaves the absent token absent when it
short-circuits); every other operation leaves it unchanged. -/
def tokenAfter (op : GatewayOp) (token : Option String) (status : Nat)
    (freshToken : String) : Option String :=
  match op with
  | GatewayOp.login => if respOk status then some freshToken else token
  | GatewayOp.signup => if respOk status then some freshToken else token
  | GatewayOp.me =>
      match token with
      | none => none
      | some t => if respOk status then some t else none
  | _ => token

-- ### Quiz view status machine (QuizView.fetchQuiz)

/-- Rendering status of the quiz view: the four-valued state used by
QuizView (loading / ready / completed / error). -/
inductive QuizStatus where
  | loading | ready | completed | error
deriving DecidableEq, Repr

/-- Embedding of the status dispatch of `QuizView.fetchQuiz`: on a resolved
fetch the view stores the questions and becomes ready; on a rejected fetch
it inspects the error message and distinguishes the already-completed
signal ("QuizAlreadyCompleted") from every other failure. -/
def fetchQuizStatus (outcome : Except String (List QuizQuestion)) : QuizStatus :=
  match outcome with
  | Except.ok _ => QuizStatus.ready
  | Except.error msg =>
      if msg = "QuizAlreadyCompleted" then QuizStatus.completed
      else QuizStatus.error

-- ### Admin module nested tab state

/-- Top-level admin tabs (AdminModule): manage content, add lesson,
categories, manage users. -/
inductive AdminTab where
  | manage | lessons | categories | users
deriving DecidableEq, Repr

/-- Sub-view of the manage tab: lesson list or quiz editor form. -/
inductive AdminSub where
  | list | quiz_form
deriving DecidableEq, Repr

/-- Selected lesson carried into the quiz editor. -/
structure LessonRef where
  id : String
  title : String
deriving DecidableEq, Repr

/-- Local state of AdminModule: active top-level tab, manage sub-view, and
the selected lesson (null when none). -/
structure AdminState where
  activeTab : AdminTab
  subView : AdminSub
  activeLesson : Option LessonRef
deriving DecidableEq, Repr

/-- Embedding of the TabButton onClick handler (AdminModule): sets the
active tab and resets the sub-view to the list; it does not touch
`activeLesson`. -/
def clickTab (name : AdminTab) (s : AdminState) : AdminState :=
  { s with activeTab := name, subView := AdminSub.list }

/-- Embedding of `handleSelectLesson`: stores the selected lesson and moves
to the target sub-view. -/
def handleSelectLesson (id title : String) (target : AdminSub)
    (s : AdminState) : AdminState :=
  { s with
    activeLesson := some (LessonRef.mk id title)
    subView := target }

/-- Embedding of `handleBackToList`: clears the selected lesson and returns
to the list sub-view. -/
def handleBackToList (s : AdminState) : AdminState :=
  { s with activeLesson := none, subView := AdminSub.list }

/-- What the manage tab's content area renders. -/
inductive ManageRender where
  | quizEditor (l : LessonRef)
  | lessonList
deriving DecidableEq, Repr

/-- Embedding of the manage-tab render dispatch (AdminModule): the quiz
editor renders only when the sub-view is the quiz form AND a lesson is
selected; otherwise the lesson list renders. -/
def renderManage (s : AdminState) : ManageRender :=
  match s.subView, s.activeLesson with
  | AdminSub.quiz_form, some l => ManageRender.quizEditor l
  | AdminSub.quiz_form, none => ManageRender.lessonList
  | AdminSub.list, _ => ManageRender.lessonList

-- ### Learn module navigation payloads

/-- Untyped navigation payload bag: the JS object carried as the third
argument of `onNavigate`.  Each field is present (`some`) exactly when the
navigating call site put it there. -/
structure Payload where
  name : Option String := none
  id : Option String := none
  title : Option String := none
  category : Option String := none
  content : Option String := none
  video_url : Option String := none
  count : Option Nat := none
  color : Option String := none
  lessonId : Option String := none
  lessonTitle : Option String := none
deriving DecidableEq, Repr

/-- Navigation state triple owned by the controller. -/
structure NavState where
  sectionName : String
  subView : String
  payload : Payload
deriving DecidableEq, Repr

/-- Payload built when the categories view navigates to the lesson list
(LearnModule: `onNavigate('learn', 'list', cat)` with the full category
object). -/
def payloadOfCategory (c : Category) : Payload :=
  { name := some c.name, id := some c.id, count := some c.count,
    color := some c.color }

/-- Payload built when the lesson list navigates to the detail view
(LearnModule: `onNavigate('learn', 'detail', lesson)` with the full lesson
object). -/
def payloadOfLesson (l : LessonDetailData) : Payload :=
  { id := some l.id, title := some l.title, category := some l.category,
    content := l.content, video_url := l.video_url }

/-- Embedding of the categories-to-list navigation call site. -/
def navCategoriesToList (c : Category) : NavState :=
  { sectionName := "learn", subView := "list", payload := payloadOfCategory c }

/-- Embedding of the list-to-detail navigation call site. -/
def navListToDetail (l : LessonDetailData) : NavState :=
  { sectionName := "learn", subView := "detail", payload := payloadOfLesson l }

/-- Embedding of the detail-to-quiz navigation call site
(LessonDetailView: `onNavigate('learn', 'quiz', { lessonId: lesson.id,
lessonTitle: lesson.title })`). -/
def navDetailToQuiz (l : LessonDetailData) : NavState :=
  { sectionName := "learn", subView := "quiz",
    payload := { lessonId := some l.id, lessonTitle := some l.title } }

/-- Field the lesson-list view reads from its payload
(LearnModule: `activeData?.name`). -/
def listViewReadsName (p : Payload) : Option String := p.name

/-- Fields the quiz view reads from its payload (QuizView:
`lessonData.lessonId` and `lessonData.lessonTitle`). -/
def quizViewReads (p : Payload) : Option String × Option String :=
  (p.lessonId, p.lessonTitle)

-- ## Theorems

/-- C1: every Gateway read operation with a defined empty default (category
list, lesson list, wallet balance, wallet history, profile stats) resolves
with that default on a non-success transport response — empty list, zero
balance, zero stats — rather than rejecting. -/
theorem c1_reads_default_on_failure (status : Nat) (h : respOk status = false)
    (cats : List RawCategory) (ls : List LessonSummary) (bal : Nat)
    (α : Type) (hist : List α) (st : Stats) :
    getCategories status cats = Except.ok [] ∧
    getLessons status ls = Except.ok [] ∧
    getBalance status bal = Except.ok 0 ∧
    getHistory status hist = Except.ok [] ∧
    getStats status st = Except.ok (Stats.mk 0 0) := by
  refine ⟨?_, ?_, ?_, ?_, ?_⟩ <;>
    simp [getCategories, getLessons, getBalance, getHistory, getStats, h]

/-- Witness for C1: a 500 status yields the empty/zero defaults for all five
reads, with concrete non-empty server data that is discarded. -/
theorem c1_reads_default_on_failure_witness :
    getCategories 500 [RawCategory.mk "JAMB" 3] = Except.ok [] ∧
    getLessons 500 [LessonSummary.mk "l1" "Intro" "JAMB"] = Except.ok [] ∧
    getBalance 500 42 = Except.ok 0 ∧
    getHistory 500 ["reward"] = Except.ok [] ∧
    getStats 500 (Stats.mk 7 9) = Except.ok (Stats.mk 0 0) :=
  c1_reads_default_on_failure 500 (by decide)
    [RawCategory.mk "JAMB" 3] [LessonSummary.mk "l1" "Intro" "JAMB"] 42
    String ["reward"] (Stats.mk 7 9)

/-- C9: the category color derivation used by the Gateway's category mapping
is a deterministic function of the name: "JAMB" maps to the fixed purple
constant, every other name to the single blue default, and `getCategories`
applies exactly this function to each raw aggregate. -/
theorem c9_category_color (n : String) (h : n ≠ "JAMB") (status : Nat)
    (hs : respOk status = true) (data : List RawCategory) :
    categoryColor "JAMB" = "bg-purple-100 text-purple-600" ∧
    categoryColor n = "bg-blue-100 text-blue-600" ∧
    getCategories status data = Except.ok (data.map fun cat =>
      Category.mk cat.category.toLower cat.category cat.count
        (categoryColor cat.category)) := by
  refine ⟨rfl, ?_, ?_⟩
  · simp [categoryColor, h]
  · simp [getCategories, hs]

/-- Witness for C9: the unmapped name "Chemistry" takes the default color,
and a successful fetch maps both names through `categoryColor`. -/
theorem c9_category_color_witness :
    categoryColor "Chemistry" = "bg-blue-100 text-blue-600" ∧
    getCategories 200 [RawCategory.mk "JAMB" 3, RawCategory.mk "Chemistry" 2]
      = Except.ok
        [Category.mk "JAMB".toLower "JAMB" 3 (categoryColor "JAMB"),
         Category.mk "Chemistry".toLower "Chemistry" 2
           (categoryColor "Chemistry")] := by
  have h := c9_category_color "Chemistry" (by decide) 200 (by decide)
    [RawCategory.mk "JAMB" 3, RawCategory.mk "Chemistry" 2]
  exact ⟨h.2.1, by rw [h.2.2]; rfl⟩

/-- C10: login and signup are atomic with respect to the stored credential —
on any non-success response they reject without modifying the stored token,
so a failed attempt leaves a previously stored token intact. -/
theorem c10_login_signup_atomic (tok : Option String) (status : Nat)
    (body : RespBody) (fresh : String) (h : respOk status = false) :
    (login tok status body fresh).1 = tok ∧
    (login tok status body fresh).2
      = Except.error (handleFailedResponse status "Login" body) ∧
    (signup tok status body fresh).1 = tok ∧
    (signup tok status body fresh).2
      = Except.error (handleFailedResponse status "Signup" body) := by
  refine ⟨?_, ?_, ?_, ?_⟩ <;> simp [login, signup, h]

/-- Witness for C10: a 401 login attempt rejects and leaves the previously
stored token "old-token" in place; the fresh token "new-token" is never
stored. -/
theorem c10_login_signup_atomic_witness :
    (login (some "old-token") 401 (RespBody.textBody "x") "new-token").1
      = some "old-token" ∧
    (signup (some "old-token") 401 (RespBody.textBody "x") "new-token").1
      = some "old-token" :=
  have h := c10_login_signup_atomic (some "old-token") 401
    (RespBody.textBody "x") "new-token" (by decide)
  ⟨h.1, h.2.2.1⟩

/-- C4 counterexample: the claim says quiz-question and lesson-detail reads
propagate transport failure; in fact on a 500 response `getQuizQuestions`
resolves with `[]` and `getLessonDetail` resolves with null — neither
rejects. -/
theorem c4_counterexample :
    respOk 500 = false ∧
    getQuizQuestions 500 [QuizQuestion.mk "q1" "Q?" ["a", "b", "c", "d"]]
      = Except.ok [] ∧
    getLessonDetail 500 (LessonDetailData.mk "abc-123" "Intro" "JAMB" none none)
      = Except.ok none := by
  decide

/-- C4 amended: the quiz-question and lesson-detail reads default-and-swallow
like the other reads — on a non-success transport response
`getQuizQuestions` resolves with the empty list and `getLessonDetail`
resolves with null, never with a rejection; the consuming views derive
their error/empty renderings from those default values. -/
theorem c4_quiz_and_detail_default (status : Nat) (h : respOk status = false)
    (qs : List QuizQuestion) (d : LessonDetailData) :
    getQuizQuestions status qs = Except.ok [] ∧
    getLessonDetail status d = Except.ok none ∧
    (∀ e, getQuizQuestions status qs ≠ Except.error e) ∧
    (∀ e, getLessonDetail status d ≠ Except.error e) := by
  refine ⟨?_, ?_, ?_, ?_⟩ <;> simp [getQuizQuestions, getLessonDetail, h]

/-- Witness for C4 amended: concrete 404 instances of both reads resolve
with their defaults. -/
theorem c4_quiz_and_detail_default_witness :
    getQuizQuestions 404 [QuizQuestion.mk "q1" "Q?" ["a", "b", "c", "d"]]
      = Except.ok [] ∧
    getLessonDetail 404 (LessonDetailData.mk "abc-123" "Intro" "JAMB" none none)
      = Except.ok none :=
  have h := c4_quiz_and_detail_default 404 (by decide)
    [QuizQuestion.mk "q1" "Q?" ["a", "b", "c", "d"]]
    (LessonDetailData.mk "abc-123" "Intro" "JAMB" none none)
  ⟨h.1, h.2.1⟩

/-- C5: when the quiz fetch rejects with the distinguished
"QuizAlreadyCompleted" signal the quiz view reaches the terminal completed
state; any other rejection reaches the generic error state; and the two
states are distinct, so the outcomes are never conflated. -/
theorem c5_quiz_completed_distinguished (m : String)
    (h : m ≠ "QuizAlreadyCompleted") :
    fetchQuizStatus (Except.error "QuizAlreadyCompleted")
      = QuizStatus.completed ∧
    fetchQuizStatus (Except.error m) = QuizStatus.error ∧
    QuizStatus.completed ≠ QuizStatus.error := by
  refine ⟨rfl, ?_, by decide⟩
  simp [fetchQuizStatus, h]

/-- Witness for C5: a generic "Network Error" rejection yields the error
state while the distinguished signal yields the completed state. -/
theorem c5_quiz_completed_distinguished_witness :
    fetchQuizStatus (Except.error "QuizAlreadyCompleted")
      = QuizStatus.completed ∧
    fetchQuizStatus (Except.error "Network Error") = QuizStatus.error :=
  have h := c5_quiz_completed_distinguished "Network Error" (by decide)
  ⟨h.1, h.2.1⟩

set_option maxRecDepth 8192 in
/-- C2 counterexample: the claim says that whenever the `detail` field is
absent the rejection message contains the status and a 100-character body
excerpt; but for a body that parses as JSON without a `detail` field (here
the object "\x7b\x7d"), `data.detail || errorDetail` falls back to the bare
synthesized message and no body excerpt is appended: the message does not
contain the excerpt. -/
theorem c2_counterexample :
    submitQuiz 500 (RespBody.jsonBody none "\x7b\x7d") (QuizResult.mk 0 0 0 0)
      = Except.error "Failed to Submit Quiz (Status: 500)" ∧
    containsSub "Failed to Submit Quiz (Status: 500)" ("\x7b\x7d".take 100)
      = false := by
  constructor
  · rfl
  · decide

/-- C2 amended: on a non-success transport response every Gateway mutation
(login, signup, quiz submission, and all admin operations) rejects with the
message built by `handleFailedResponse`, which equals the body's `detail`
field when the body parses as JSON with a non-empty detail; is the bare
synthesized "Failed to (action) (Status: s)" message — with no body
excerpt — when the body parses as JSON but `detail` is absent or empty; and
is the synthesized message plus a body excerpt truncated to 100 characters
exactly when the body fails to parse as JSON. -/
theorem c2_mutation_failure_message (status : Nat) (h : respOk status = false)
    (action raw : String) (d : String) (hd : d ≠ "") :
    handleFailedResponse status action (RespBody.jsonBody (some d) raw) = d ∧
    handleFailedResponse status action (RespBody.jsonBody none raw)
      = "Failed to " ++ action ++ " (Status: " ++ toString status ++ ")" ∧
    handleFailedResponse status action (RespBody.jsonBody (some "") raw)
      = "Failed to " ++ action ++ " (Status: " ++ toString status ++ ")" ∧
    handleFailedResponse status action (RespBody.textBody raw)
      = "Failed to " ++ action ++ " (Status: " ++ toString status ++ ")"
        ++ ". Server response: " ++ raw.take 100 ++ "..." ∧
    (∀ (tok : Option String) (body : RespBody) (t : String),
      (login tok status body t).2
        = Except.error (handleFailedResponse status "Login" body)) ∧
    (∀ (tok : Option String) (body : RespBody) (t : String),
      (signup tok status body t).2
        = Except.error (handleFailedResponse status "Signup" body)) ∧
    (∀ (body : RespBody) (r : QuizResult),
      submitQuiz status body r
        = Except.error (handleFailedResponse status "Submit Quiz" body)) ∧
    (∀ (body : RespBody) (v : Nat),
      adminGetUsers status body v = Except.error
        (handleFailedResponse status "Fetch Users (Admin)" body)) ∧
    (∀ (body : RespBody) (v : Nat),
      adminGetAllUsers status body v = Except.error
        (handleFailedResponse status "Fetch All Users" body)) ∧
    (∀ (isAdmin : Bool) (body : RespBody) (v : Nat),
      adminPromoteUser isAdmin status body v = Except.error
        (handleFailedResponse status
          (if isAdmin then "Promote User" else "Demote User") body)) ∧
    (∀ (body : RespBody) (v : Nat),
      adminCreateLesson status body v = Except.error
        (handleFailedResponse status "Create Lesson" body)) ∧
    (∀ (lessonId : String) (body : RespBody),
      adminDeleteLesson lessonId status body = Except.error
        (handleFailedResponse status ("Delete Lesson ID " ++ lessonId) body)) ∧
    (∀ (body : RespBody) (v : Nat),
      adminUploadQuiz status body v = Except.error
        (handleFailedResponse status "Upload Quiz Questions" body)) ∧
    (∀ (lessonId : String) (body : RespBody),
      adminDeleteQuiz lessonId status body = Except.error
        (handleFailedResponse status
          ("Delete Quiz for Lesson ID " ++ lessonId) body)) ∧
    (∀ (body : RespBody) (v : Nat),
      adminGetAllLessons status body v = Except.error
        (handleFailedResponse status "Fetch All Lessons" body)) ∧
    (∀ (body : RespBody) (v : Nat),
      adminCreateQuiz status body v = Except.error
        (handleFailedResponse status "Create Quiz" body)) := by
  refine ⟨by simp [handleFailedResponse, hd], rfl, rfl, rfl,
    ?_, ?_, ?_, ?_, ?_, ?_, ?_, ?_, ?_, ?_, ?_, ?_⟩ <;>
    intros <;>
    simp [login, signup, submitQuiz, adminGetUsers, adminGetAllUsers,
      adminPromoteUser, adminCreateLesson, adminDeleteLesson,
      adminUploadQuiz, adminDeleteQuiz, adminGetAllLessons,
      adminCreateQuiz, h]

/-- Witness for C2 amended: a 500 response whose JSON body carries the
detail "Quiz already completed" rejects the quiz submission with exactly
that message; an unparseable HTML body yields the synthesized message with
the 100-character excerpt. -/
theorem c2_mutation_failure_message_witness :
    handleFailedResponse 500 "Submit Quiz"
      (RespBody.jsonBody (some "Quiz already completed") "x")
      = "Quiz already completed" ∧
    handleFailedResponse 500 "Submit Quiz"
      (RespBody.textBody "An error occurred")
      = "Failed to Submit Quiz (Status: 500)"
        ++ ". Server response: " ++ "An error occurred".take 100 ++ "..." :=
  have h := c2_mutation_failure_message 500 (by decide) "Submit Quiz" "An error occurred"
    "Quiz already completed" (by decide)
  ⟨h.1, h.2.2.2.1⟩

/-- C3: the stored bearer credential follows the claimed state machine — a
successful login or signup stores the returned token, overwriting any
previous one, and every subsequent operation other than login/signup
attaches it as "Bearer (token)"; a failed profile fetch clears the stored
token, after which every request that is issued carries no authorization
header; and no operation besides login, signup and the profile fetch ever
changes the stored token. -/
theorem c3_token_state_machine (tok : Option String) (status : Nat)
    (fresh t : String) (p : RawProfile) (op : GatewayOp) :
    (respOk status = true →
      tokenAfter GatewayOp.login tok status fresh = some fresh ∧
      tokenAfter GatewayOp.signup tok status fresh = some fresh ∧
      (login tok status (RespBody.textBody "") fresh).1 = some fresh ∧
      (signup tok status (RespBody.textBody "") fresh).1 = some fresh) ∧
    (op ≠ GatewayOp.login → op ≠ GatewayOp.signup →
      requestOf op (some t)
        = some (Headers.mk true (some ("Bearer " ++ t)))) ∧
    (respOk status = false →
      tokenAfter GatewayOp.me (some t) status fresh = none ∧
      (me (some t) status p).1 = none) ∧
    (∀ h : Headers, requestOf op none = some h → h.authorization = none) ∧
    (op ≠ GatewayOp.login → op ≠ GatewayOp.signup → op ≠ GatewayOp.me →
      tokenAfter op tok status fresh = tok) := by
  refine ⟨?_, ?_, ?_, ?_, ?_⟩
  · intro hs
    simp [tokenAfter, login, signup, hs]
  · intro h1 h2
    cases op <;> simp_all [requestOf, getAuthHeader]
  · intro hf
    simp [tokenAfter, me, hf]
  · intro hh hreq
    cases op <;> simp_all [requestOf, getAuthHeader] <;> (subst hreq; rfl)
  · intro h1 h2 h3
    cases op <;> simp_all [tokenAfter]

/-- Witness for C3: token "tk" stored by a 200 login is attached by the next
balance read; a 401 profile fetch clears it; and a categories read leaves
the stored token untouched. -/
theorem c3_token_state_machine_witness :
    tokenAfter GatewayOp.login none 200 "tk" = some "tk" ∧
    requestOf GatewayOp.getBalance (some "tk")
      = some (Headers.mk true (some ("Bearer " ++ "tk"))) ∧
    tokenAfter GatewayOp.me (some "tk") 401 "f" = none ∧
    tokenAfter GatewayOp.getCategories (some "tk") 401 "f" = some "tk" :=
  have h1 := c3_token_state_machine none 200 "tk" "tk"
    (RawProfile.mk "u" "n" "e" false "d") GatewayOp.getBalance
  have h2 := c3_token_state_machine (some "tk") 401 "f" "tk"
    (RawProfile.mk "u" "n" "e" false "d") GatewayOp.getCategories
  ⟨(h1.1 (by decide)).1, h1.2.1 (by decide) (by decide),
    (h2.2.2.1 (by decide)).1, h2.2.2.2.2 (by decide) (by decide) (by decide)⟩

/-- C6 counterexample: from the admin state (manage, quiz_form, lesson "x"),
switching the top-level tab to users and back to manage yields
(manage, list, lesson "x") — the lesson payload is retained, not nulled —
so the resulting state differs from the claimed (manage, list, null). -/
theorem c6_counterexample :
    clickTab AdminTab.manage (clickTab AdminTab.users
        (AdminState.mk AdminTab.manage AdminSub.quiz_form
          (some (LessonRef.mk "x" "Algebra"))))
      = AdminState.mk AdminTab.manage AdminSub.list
          (some (LessonRef.mk "x" "Algebra")) ∧
    AdminState.mk AdminTab.manage AdminSub.list
        (some (LessonRef.mk "x" "Algebra"))
      ≠ AdminState.mk AdminTab.manage AdminSub.list none := by
  decide

/-- C6 amended: switching the top-level admin tab resets the manage
sub-state's sub-view to the list view, so after switching away and back the
lesson list (not the stale quiz editor) renders; but the selected-lesson
payload is left unchanged (possibly non-null) — only selecting a lesson or
the explicit back-to-list handler modify it, the latter nulling it. -/
theorem c6_tab_switch_resets_subview (s : AdminState) (tb : AdminTab)
    (id title : String) :
    (clickTab AdminTab.manage (clickTab tb s)).activeTab = AdminTab.manage ∧
    (clickTab AdminTab.manage (clickTab tb s)).subView = AdminSub.list ∧
    (clickTab AdminTab.manage (clickTab tb s)).activeLesson
      = s.activeLesson ∧
    renderManage (clickTab AdminTab.manage (clickTab tb s))
      = ManageRender.lessonList ∧
    (handleSelectLesson id title AdminSub.quiz_form s).activeLesson
      = some (LessonRef.mk id title) ∧
    (handleBackToList s).activeLesson = none ∧
    (handleBackToList s).subView = AdminSub.list := by
  refine ⟨rfl, rfl, rfl, ?_, rfl, rfl, rfl⟩
  simp [clickTab, renderManage]

/-- C7 counterexample: the claim says every operation except login and
signup still attempts its request when no token is stored; but the profile
fetch (`me`) is neither login nor signup and issues no request at all when
the token is absent. -/
theorem c7_counterexample :
    GatewayOp.me ≠ GatewayOp.login ∧
    GatewayOp.me ≠ GatewayOp.signup ∧
    requestOf GatewayOp.me none = none := by
  decide

/-- C7 amended: every Gateway operation except login and signup attaches the
stored bearer token in the authorization header whenever one is present;
when no token is stored, every such operation except the profile fetch
still attempts its request without an authorization header, while the
profile fetch short-circuits to a null result locally, issuing no request
and no failure. -/
theorem c7_auth_header_injection (op : GatewayOp) (t : String) (status : Nat)
    (p : RawProfile) (h1 : op ≠ GatewayOp.login) (h2 : op ≠ GatewayOp.signup) :
    requestOf op (some t)
      = some (Headers.mk true (some ("Bearer " ++ t))) ∧
    (op ≠ GatewayOp.me → requestOf op none = some (Headers.mk true none)) ∧
    requestOf GatewayOp.me none = none ∧
    me none status p = (none, none) := by
  cases op <;> simp_all [requestOf, getAuthHeader, me]

/-- Witness for C7 amended: with token "tk" the balance read carries the
bearer header; with no token it is still attempted with no authorization
header, while the profile fetch issues no request and returns null. -/
theorem c7_auth_header_injection_witness :
    requestOf GatewayOp.getBalance (some "tk")
      = some (Headers.mk true (some ("Bearer " ++ "tk"))) ∧
    requestOf GatewayOp.getBalance none = some (Headers.mk true none) ∧
    requestOf GatewayOp.me none = none ∧
    me none 200 (RawProfile.mk "u" "n" "e" false "d") = (none, none) :=
  have h := c7_auth_header_injection GatewayOp.getBalance "tk" 200
    (RawProfile.mk "u" "n" "e" false "d") (by decide) (by decide)
  ⟨h.1, h.2.1 (by decide), h.2.2.1, h.2.2.2⟩

/-- C8: the learn-flow navigation sequence preserves exactly the payload
shape each sub-view expects — the categories-to-list hop carries the
category object whose `name` the list view reads; the list-to-detail hop
carries the full lesson object; the detail-to-quiz hop constructs
lessonId/lessonTitle from that lesson; and the quiz view reads exactly
those two fields, so for the literal scenario (name "JAMB", lesson id
"abc-123", title "Intro") no field is dropped between hops. -/
theorem c8_navigation_payload_shapes (c : Category) (l : LessonDetailData) :
    navCategoriesToList c
      = NavState.mk "learn" "list" (payloadOfCategory c) ∧
    listViewReadsName (navCategoriesToList c).payload = some c.name ∧
    navListToDetail l
      = NavState.mk "learn" "detail" (payloadOfLesson l) ∧
    (navListToDetail l).payload.id = some l.id ∧
    (navListToDetail l).payload.title = some l.title ∧
    (navListToDetail l).payload.category = some l.category ∧
    (navDetailToQuiz l).sectionName = "learn" ∧
    (navDetailToQuiz l).subView = "quiz" ∧
    quizViewReads (navDetailToQuiz l).payload = (some l.id, some l.title) ∧
    listViewReadsName
        (navCategoriesToList (Category.mk "jamb" "JAMB" 3 "c")).payload
      = some "JAMB" ∧
    quizViewReads
        (navDetailToQuiz
          (LessonDetailData.mk "abc-123" "Intro" "JAMB" none none)).payload
      = (some "abc-123", some "Intro") := by
  refine ⟨rfl, rfl, rfl, rfl, rfl, rfl, rfl, rfl, rfl, rfl, rfl⟩

end Reads
